import Mathlib

/-!
# Verification of the ccremote Session Monitoring Engine

Shallow embedding of `src/core/monitor.ts` (class `Monitor`).  Pane text is
modelled as `List Char`; wall-clock instants as natural numbers (seconds for
the reset-time scheduler, milliseconds for the idle detector, matching the
units each source function computes in).  Stateful handlers become pure
functions from the per-session runtime state to a new state plus a list of
emitted effects (in-process events, notifications, status updates).
-/

namespace Ccremote

/-! ## Character and string utilities (JS string semantics) -/

/-- ASCII lower-casing of one character, as `String.prototype.toLowerCase`
acts on the ASCII range (the only range the monitor's patterns use). -/
def asciiToLower (c : Char) : Char :=
  if 'A' ≤ c ∧ c ≤ 'Z' then Char.ofNat (c.toNat + 32) else c

/-- JavaScript `\s` on the ASCII range: space, tab, LF, VT, FF, CR. -/
def isJsWs (c : Char) : Bool :=
  c = ' ' || c = '\t' || c = '\n' || c = '\x0b' || c = '\x0c' || c = '\r'

/-- Decimal digit test (`\d`). -/
def isDigitChar (c : Char) : Bool :=
  '0' ≤ c && c ≤ '9'

/-- Numeric value of a decimal digit character. -/
def digitVal (c : Char) : Nat := c.toNat - 48

/-- `String.prototype.trim`: strip leading and trailing whitespace. -/
def trimChars (l : List Char) : List Char :=
  ((l.dropWhile isJsWs).reverse.dropWhile isJsWs).reverse

/-- `String.prototype.split('\n')`. -/
def splitLines : List Char → List (List Char)
  | [] => [[]]
  | c :: rest =>
    if c = '\n' then [] :: splitLines rest
    else
      match splitLines rest with
      | [] => [[c]]
      | l :: ls => (c :: l) :: ls

/-- `hay` starts with `needle` (exact characters). -/
def startsWithChars : List Char → List Char → Bool
  | [], _ => true
  | _ :: _, [] => false
  | a :: as, b :: bs => (a = b) && startsWithChars as bs

/-- `String.prototype.includes(needle)`: `needle` occurs contiguously in the
list. -/
def jsIncludes (needle : List Char) : List Char → Bool
  | [] => needle.isEmpty
  | c :: rest => startsWithChars needle (c :: rest) || jsIncludes needle rest

/-- Case-insensitive `startsWith`, used to embed `/i` regex literals. -/
def ciStartsWith : List Char → List Char → Bool
  | [], _ => true
  | _ :: _, [] => false
  | a :: as, b :: bs => (asciiToLower a = asciiToLower b) && ciStartsWith as bs

/-- Case-insensitive substring test (`/lit/i.test(s)` for a literal `lit`). -/
def ciContains (needle : List Char) : List Char → Bool
  | [] => needle.isEmpty
  | c :: rest => ciStartsWith needle (c :: rest) || ciContains needle rest

/-! ## `Monitor.getNewOutput` (monitor.ts lines 234–246) -/

/-- `getNewOutput(lastOutput, currentOutput)`: empty `lastOutput` returns the
whole current capture; if the current capture `includes` the last one the
first `lastOutput.length` characters are dropped (`substring`); otherwise the
whole current capture is returned. -/
def getNewOutput (lastOutput currentOutput : List Char) : List Char :=
  if lastOutput = [] then currentOutput
  else if jsIncludes lastOutput currentOutput then
    currentOutput.drop lastOutput.length
  else currentOutput

/-- Modelled from the spec's wording for the new-output slice: the suffix of
`hay` that follows the first occurrence of `needle` (`none` when `needle`
does not occur).  Used only to compare the code's behaviour against the
claim's reading. -/
def suffixAfterOccurrence (needle : List Char) : List Char → Option (List Char)
  | [] => if needle = [] then some [] else none
  | c :: t =>
    if startsWithChars needle (c :: t) then some ((c :: t).drop needle.length)
    else suffixAfterOccurrence needle t

/-! ## `Monitor` constructor option defaulting (monitor.ts lines 68–83) -/

/-- The optional `MonitoringOptions` object passed to the constructor.
JS `undefined` fields are `none`. -/
structure MonitoringOptions where
  pollInterval : Option Nat := none
  maxRetries : Option Nat := none
  autoRestart : Option Bool := none

/-- The resolved `Required<MonitoringOptions>` configuration. -/
structure ResolvedOptions where
  pollInterval : Nat
  maxRetries : Nat
  autoRestart : Bool
  deriving DecidableEq

/-- JS `x || d` for a possibly-undefined number `x`: `undefined` and `0` are
falsy and select the default. -/
def jsOrNum (v : Option Nat) (d : Nat) : Nat :=
  match v with
  | none => d
  | some n => if n = 0 then d else n

/-- JS `x || d` for a possibly-undefined boolean `x`: `undefined` and `false`
are falsy and select the default. -/
def jsOrBool (v : Option Bool) (d : Bool) : Bool :=
  match v with
  | none => d
  | some b => if b then b else d

/-- The constructor's option resolution:
`pollInterval: options.pollInterval || 2000`,
`maxRetries: options.maxRetries || 3`,
`autoRestart: options.autoRestart || true`. -/
def resolveMonitoringOptions (o : MonitoringOptions) : ResolvedOptions :=
  { pollInterval := jsOrNum o.pollInterval 2000
  , maxRetries := jsOrNum o.maxRetries 3
  , autoRestart := jsOrBool o.autoRestart true }

/-! ## Claim theorems: C10 and C6 -/

/-- C10: every options object resolves to `autoRestart = true` (even an
explicit `autoRestart: false`), and supplying `pollInterval: 0` or
`maxRetries: 0` selects the defaults 2000 and 3, because each field is
defaulted with logical-or. -/
theorem constructor_defaults_spec :
    (∀ o : MonitoringOptions, (resolveMonitoringOptions o).autoRestart = true)
    ∧ resolveMonitoringOptions { autoRestart := some false } =
        { pollInterval := 2000, maxRetries := 3, autoRestart := true }
    ∧ (∀ o : MonitoringOptions, o.pollInterval = some 0 →
        (resolveMonitoringOptions o).pollInterval = 2000)
    ∧ (∀ o : MonitoringOptions, o.maxRetries = some 0 →
        (resolveMonitoringOptions o).maxRetries = 3) := by
  refine ⟨?_, rfl, ?_, ?_⟩
  · intro o
    cases h : o.autoRestart with
    | none => simp [resolveMonitoringOptions, jsOrBool, h]
    | some b => cases b <;> simp [resolveMonitoringOptions, jsOrBool, h]
  · intro o h
    simp [resolveMonitoringOptions, jsOrNum, h]
  · intro o h
    simp [resolveMonitoringOptions, jsOrNum, h]

/-- C6 counterexample: with `lastOutput = "bc"` and `currentOutput = "abcd"`,
the code returns `"cd"` (it drops `lastOutput.length` characters from the
front), while the suffix of `currentOutput` that follows the occurrence of
`lastOutput` is `"d"`.  The claim's universally quantified description is
therefore false. -/
theorem getNewOutput_not_suffix_after :
    getNewOutput ("bc".data) ("abcd".data) = "cd".data
    ∧ suffixAfterOccurrence ("bc".data) ("abcd".data) = some ("d".data)
    ∧ "cd".data ≠ "d".data := by
  refine ⟨by decide, by decide, by decide⟩

/-- Helper: a prefix occurrence makes `jsIncludes` true. -/
theorem jsIncludes_of_startsWith (needle hay : List Char)
    (h : startsWithChars needle hay = true) : jsIncludes needle hay = true := by
  cases hay with
  | nil =>
    cases needle with
    | nil => rfl
    | cons a as => simp [startsWithChars] at h
  | cons c rest => simp [jsIncludes, h]

/-- C6 (amended): if `lastOutput` is empty the whole `currentOutput` is
returned; if `currentOutput` includes `lastOutput` the result is
`currentOutput` with its first `lastOutput.length` characters dropped —
which agrees with "the suffix following `lastOutput`" exactly when
`lastOutput` is a prefix of `currentOutput`; otherwise the whole
`currentOutput` is returned. -/
theorem getNewOutput_spec (lastOutput currentOutput : List Char) :
    (lastOutput = [] → getNewOutput lastOutput currentOutput = currentOutput)
    ∧ (lastOutput ≠ [] → jsIncludes lastOutput currentOutput = true →
        getNewOutput lastOutput currentOutput =
          currentOutput.drop lastOutput.length)
    ∧ (lastOutput ≠ [] → jsIncludes lastOutput currentOutput = false →
        getNewOutput lastOutput currentOutput = currentOutput)
    ∧ (startsWithChars lastOutput currentOutput = true →
        some (getNewOutput lastOutput currentOutput) =
          suffixAfterOccurrence lastOutput currentOutput) := by
  refine ⟨?_, ?_, ?_, ?_⟩
  · intro h; simp [getNewOutput, h]
  · intro h hin; simp [getNewOutput, h, hin]
  · intro h hin; simp [getNewOutput, h, hin]
  · intro hpre
    cases currentOutput with
    | nil =>
      cases lastOutput with
      | nil => decide
      | cons a as => simp [startsWithChars] at hpre
    | cons c t =>
      have hin : jsIncludes lastOutput (c :: t) = true :=
        jsIncludes_of_startsWith _ _ hpre
      by_cases hl : lastOutput = []
      · subst hl
        simp [getNewOutput, suffixAfterOccurrence, startsWithChars]
      · simp [getNewOutput, hl, hin, suffixAfterOccurrence, hpre]

/-- C6 witness: the amended theorem applied at the concrete pair
`("Hello world", "Hello world\nNew line here")` from the source's own test. -/
theorem getNewOutput_spec_witness :
    getNewOutput ("Hello world".data) ("Hello world\nNew line here".data) =
      ("Hello world\nNew line here".data).drop ("Hello world".data).length :=
  (getNewOutput_spec ("Hello world".data)
    ("Hello world\nNew line here".data)).2.1 (by decide) (by decide)

/-! ## Events, notifications, status updates, per-session runtime state -/

/-- In-process `MonitorEvent` types (monitor.ts lines 15–20). -/
inductive EventType
  | limit_detected
  | approval_needed
  | task_completed
  | error
  deriving DecidableEq

/-- Outbound notification types (`NotificationMessage.type`). -/
inductive NotifyType
  | limit
  | continued
  | approval
  | task_completed
  | error
  deriving DecidableEq

/-- Session status values written through the registry. -/
inductive SessionStatus
  | active
  | waiting
  | waiting_approval
  | ended
  deriving DecidableEq

/-- One externally visible side effect of a handler.  The payload of a
notification records the claim-relevant field: the `resetTime` metadata for
`limit`, the extracted question for `approval`, the analysed output for
`task_completed`. -/
inductive Effect
  | emitEvent (t : EventType)
  | notify (t : NotifyType) (payload : List Char)
  | updateStatus (s : SessionStatus)
  deriving DecidableEq

/-- The per-session runtime state kept in `sessionStates` (monitor.ts lines
28–39; `lastApprovalQuestion` is attached dynamically in
`handleApprovalRequest`).  Timestamps are naturals in the unit the consuming
function uses. -/
structure SessionRuntimeState where
  lastOutput : List Char := []
  awaitingContinuation : Bool := false
  retryCount : Nat := 0
  lastContinuationTime : Option Nat := none
  scheduledResetTime : Option Nat := none
  immediateContinueAttempted : Bool := false
  quotaCommandSent : Bool := false
  lastOutputChangeTime : Option Nat := none
  lastTaskCompletionNotification : Option Nat := none
  lastApprovalQuestion : Option (List Char) := none
  deriving DecidableEq

/-- The state installed by `startMonitoring` (monitor.ts lines 112–122),
with `now` the creation instant. -/
def initSessionState (now : Nat) : SessionRuntimeState :=
  { lastOutput := []
  , awaitingContinuation := false
  , retryCount := 0
  , lastContinuationTime := none
  , scheduledResetTime := none
  , immediateContinueAttempted := false
  , quotaCommandSent := false
  , lastOutputChangeTime := some now
  , lastTaskCompletionNotification := none
  , lastApprovalQuestion := none }

/-! ## Interactive approval dialog validation (monitor.ts lines 459–492) -/

/-- The `ANSI_ESCAPE` constant `'\u001B['`. -/
def ansiEscChars : List Char := ['\x1b', '[']

/-- `/\d+\.\s+Yes/` at the current position: one or more digits, a dot, one
or more whitespace characters, then `Yes`. -/
def yesAfterWs : List Char → Bool
  | [] => false
  | c :: rest =>
    startsWithChars ("Yes".data) (c :: rest) || (isJsWs c && yesAfterWs rest)

/-- After at least one digit: consume further digits, then require `.` and
`\s+Yes`. -/
def afterDigitsDotYes : List Char → Bool
  | [] => false
  | c :: rest =>
    if isDigitChar c then afterDigitsDotYes rest
    else c = '.' && (match rest with
      | [] => false
      | d :: rest2 => isJsWs d && yesAfterWs rest2)

/-- `/\d+\.\s+Yes/.test(line)`. -/
def testNumberedYes : List Char → Bool
  | [] => false
  | c :: rest => (isDigitChar c && afterDigitsDotYes rest) || testNumberedYes rest

/-- A line "carrying approval content":
`line.includes('Do you want to') || line.includes('❯') || /\d+\.\s+Yes/.test(line)`. -/
def approvalContentLine (line : List Char) : Bool :=
  jsIncludes ("Do you want to".data) line
  || jsIncludes ("❯".data) line
  || testNumberedYes line

/-- Single-digit alternative `[013-79]` of the normal-color code class. -/
def isNormalSingleDigit (c : Char) : Bool :=
  c = '0' || c = '1' || ('3' ≤ c && c ≤ '7') || c = '9'

/-- Digit class `[0-79]`. -/
def isDigit079 (c : Char) : Bool := ('0' ≤ c && c ≤ '7') || c = '9'

/-- Digit class `[1-79]`. -/
def isDigit179 (c : Char) : Bool := ('1' ≤ c && c ≤ '7') || c = '9'

/-- `/\[(?:[013-79]|[13][0-79]|4[0-79]|9[1-79])m/` anchored at the current
position. -/
def normalColorCodeAt (l : List Char) : Bool :=
  match l with
  | '[' :: rest =>
    (match rest with
     | c1 :: 'm' :: _ => isNormalSingleDigit c1
     | _ => false)
    ||
    (match rest with
     | c1 :: c2 :: 'm' :: _ =>
       ((c1 = '1' || c1 = '3') && isDigit079 c2)
       || (c1 = '4' && isDigit079 c2)
       || (c1 = '9' && isDigit179 c2)
     | _ => false)
  | _ => false

/-- `/\[(?:[013-79]|[13][0-79]|4[0-79]|9[1-79])m/.test(line)`. -/
def testNormalColorCode : List Char → Bool
  | [] => false
  | c :: rest => normalColorCodeAt (c :: rest) || testNormalColorCode rest

/-- `/\[(?:2|8|90)m/` anchored at the current position. -/
def greyDimCodeAt : List Char → Bool
  | '[' :: '2' :: 'm' :: _ => true
  | '[' :: '8' :: 'm' :: _ => true
  | '[' :: '9' :: '0' :: 'm' :: _ => true
  | _ => false

/-- `/\[(?:2|8|90)m/.test(line)`. -/
def testGreyDimCode : List Char → Bool
  | [] => false
  | c :: rest => greyDimCodeAt (c :: rest) || testGreyDimCode rest

/-- `hasNormalColors` for one line: the line contains `ANSI_ESCAPE` and the
normal-color code pattern. -/
def hasNormalColors (line : List Char) : Bool :=
  jsIncludes ansiEscChars line && testNormalColorCode line

/-- `isGreyOrDim` for one line: the line contains `ANSI_ESCAPE` and a
dim/grey code (2, 8 or 90). -/
def isGreyOrDim (line : List Char) : Bool :=
  jsIncludes ansiEscChars line && testGreyDimCode line

/-- The `for (const line of lines)` loop of `isInteractiveApprovalDialog`,
threading the `hasApprovalContent` and `hasInteractiveColors` flags. -/
def interactiveDialogLoop : List (List Char) → Bool → Bool → Bool × Bool
  | [], hasApp, hasInt => (hasApp, hasInt)
  | line :: rest, hasApp, hasInt =>
    if approvalContentLine line then
      interactiveDialogLoop rest true
        (hasInt || (hasNormalColors line && !(isGreyOrDim line)))
    else interactiveDialogLoop rest hasApp hasInt

/-- `isInteractiveApprovalDialog(colorOutput)` (monitor.ts lines 459–492). -/
def isInteractiveApprovalDialog (colorOutput : List Char) : Bool :=
  let r := interactiveDialogLoop (splitLines colorOutput) false false
  if r.1 && !(jsIncludes ansiEscChars colorOutput) then true
  else r.1 && r.2

/-- The per-line condition under which the loop records interactive colors. -/
def interactiveColorLine (l : List Char) : Bool :=
  approvalContentLine l && (hasNormalColors l && !(isGreyOrDim l))

/-- The loop's two flags equal `any` over the processed lines. -/
theorem interactiveDialogLoop_spec (ls : List (List Char)) (a i : Bool) :
    interactiveDialogLoop ls a i =
      (a || ls.any approvalContentLine, i || ls.any interactiveColorLine) := by
  induction ls generalizing a i with
  | nil => simp [interactiveDialogLoop]
  | cons l rest ih =>
    cases h : approvalContentLine l with
    | true =>
      cases a <;> cases i <;>
        simp [interactiveDialogLoop, h, ih, interactiveColorLine,
          Bool.or_assoc, List.any_cons]
    | false =>
      cases a <;> cases i <;>
        simp [interactiveDialogLoop, h, ih, interactiveColorLine, List.any_cons]

/-- An interactive-color line carries approval content. -/
theorem anyInteractive_imp_anyApproval (ls : List (List Char))
    (h : ls.any interactiveColorLine = true) :
    ls.any approvalContentLine = true := by
  rcases List.any_eq_true.mp h with ⟨l, hl, hP⟩
  refine List.any_eq_true.mpr ⟨l, hl, ?_⟩
  unfold interactiveColorLine at hP
  cases h1 : approvalContentLine l with
  | true => rfl
  | false => rw [h1] at hP; simp at hP

/-- C7: `isInteractiveApprovalDialog` returns true iff some line carrying
approval content has a non-dim color escape and no dim/grey escape
(codes 2, 8, 90), except that approval content with no ANSI escape sequence
anywhere in the capture is treated as interactive. -/
theorem interactive_dialog_iff (colorOutput : List Char) :
    isInteractiveApprovalDialog colorOutput = true ↔
      ((splitLines colorOutput).any interactiveColorLine = true
       ∨ ((splitLines colorOutput).any approvalContentLine = true
          ∧ jsIncludes ansiEscChars colorOutput = false)) := by
  unfold isInteractiveApprovalDialog
  rw [interactiveDialogLoop_spec]
  simp only [Bool.false_or]
  cases hA : (splitLines colorOutput).any approvalContentLine with
  | false =>
    cases hI : (splitLines colorOutput).any interactiveColorLine with
    | false => simp [hA]
    | true => exact absurd (anyInteractive_imp_anyApproval _ hI) (by simp [hA])
  | true =>
    cases hE : jsIncludes ansiEscChars colorOutput with
    | false => simp [hA, hE]
    | true =>
      cases hI : (splitLines colorOutput).any interactiveColorLine with
      | false => simp [hA, hE, hI]
      | true => simp [hA, hE, hI]

/-! ## Approval arbiter (monitor.ts lines 559–636 and 638–688) -/

/-- The box-drawing and selection characters stripped by `extractApprovalInfo`
before analysing a line. -/
def boxChars : List Char :=
  "│┃┆┊╎╏║╭╮╯╰┌┐└┘├┤┬┴┼─━┄┅┈┉═╔╗╚╝╠╣╦╩╬❯".data

/-- `line.replace(/[box]/g, '')`. -/
def removeBoxChars (l : List Char) : List Char :=
  l.filter (fun c => !(boxChars.contains c))

/-- `replace(/\s+/g, ' ')`: collapse each whitespace run into one space.
`prevWs` records whether the previous character belonged to a run. -/
def collapseWsAux : Bool → List Char → List Char
  | _, [] => []
  | prevWs, c :: rest =>
    if isJsWs c then
      if prevWs then collapseWsAux true rest
      else ' ' :: collapseWsAux true rest
    else c :: collapseWsAux false rest

/-- The `cleanLine` computation of `extractApprovalInfo`: strip box
characters, collapse whitespace, trim. -/
def cleanDialogLine (l : List Char) : List Char :=
  trimChars (collapseWsAux false (removeBoxChars l))

/-- `/Do you want to (?:make this edit to|create|proceed)/i.test(line)`. -/
def questionLineTest (l : List Char) : Bool :=
  ciContains ("Do you want to make this edit to".data) l
  || ciContains ("Do you want to create".data) l
  || ciContains ("Do you want to proceed".data) l

/-- The `question` field computed by `extractApprovalInfo`: the cleaned text
of the last line matching the question pattern (initially the empty
string). -/
def extractApprovalQuestion (output : List Char) : List Char :=
  (splitLines output).foldl
    (fun q line =>
      let clean := cleanDialogLine line
      if questionLineTest clean then clean else q)
    []

/-- `handleApprovalRequest` (monitor.ts lines 638–688): dedup on the
extracted question against `lastApprovalQuestion`; on a fresh question set
the latch, emit `approval_needed`, send the `approval` notification and move
the session to `waiting_approval`. -/
def handleApprovalRequest (st : SessionRuntimeState) (output : List Char) :
    SessionRuntimeState × List Effect :=
  let q := extractApprovalQuestion output
  if st.lastApprovalQuestion = some q then (st, [])
  else
    ({ st with lastApprovalQuestion := some q },
     [Effect.emitEvent EventType.approval_needed,
      Effect.notify NotifyType.approval q,
      Effect.updateStatus SessionStatus.waiting_approval])

/-- After any `handleApprovalRequest` call the latch holds the question just
extracted. -/
theorem handleApprovalRequest_latch (st : SessionRuntimeState)
    (output : List Char) :
    (handleApprovalRequest st output).1.lastApprovalQuestion =
      some (extractApprovalQuestion output) := by
  unfold handleApprovalRequest
  by_cases h : st.lastApprovalQuestion = some (extractApprovalQuestion output)
  · simp [h]
  · simp [h]

/-- A call whose extracted question equals the stored latch is a no-op. -/
theorem handleApprovalRequest_skip (st : SessionRuntimeState)
    (output : List Char)
    (h : st.lastApprovalQuestion = some (extractApprovalQuestion output)) :
    handleApprovalRequest st output = (st, []) := by
  unfold handleApprovalRequest
  simp [h]

/-- C1: consecutive approval dialogs with the same extracted question emit at
most one approval notification.  If the stored `lastApprovalQuestion` equals
the extracted question the handler produces no event, no notification and no
status update and leaves the state unchanged; after handling `out1`, a second
capture whose question is unchanged emits nothing; anything the second call
does emit implies the question text changed. -/
theorem approval_dedup (st : SessionRuntimeState) (out1 out2 : List Char)
    (hsame : extractApprovalQuestion out2 = extractApprovalQuestion out1) :
    (st.lastApprovalQuestion = some (extractApprovalQuestion out1) →
      handleApprovalRequest st out1 = (st, []))
    ∧ (handleApprovalRequest (handleApprovalRequest st out1).1 out2).2 = []
    ∧ (∀ out3,
        (handleApprovalRequest (handleApprovalRequest st out1).1 out3).2 ≠ [] →
        extractApprovalQuestion out3 ≠ extractApprovalQuestion out1) := by
  refine ⟨fun h => handleApprovalRequest_skip st out1 h, ?_, ?_⟩
  · have hl := handleApprovalRequest_latch st out1
    have h2 : (handleApprovalRequest st out1).1.lastApprovalQuestion =
        some (extractApprovalQuestion out2) := by rw [hl, hsame]
    rw [handleApprovalRequest_skip _ _ h2]
  · intro out3 hne heq
    have hl := handleApprovalRequest_latch st out1
    have h2 : (handleApprovalRequest st out1).1.lastApprovalQuestion =
        some (extractApprovalQuestion out3) := by rw [hl, heq]
    exact hne (by rw [handleApprovalRequest_skip _ _ h2])

/-- C1 witness: a concrete proceed dialog: handling the same question twice
emits effects only once (the second call is silent). -/
theorem approval_dedup_witness :
    (handleApprovalRequest
      (handleApprovalRequest (initSessionState 0)
        ("Do you want to proceed?\n❯ 1. Yes\n  2. No".data)).1
      ("Do you want to proceed?\n❯ 1. Yes\n  2. No".data)).2 = [] :=
  (approval_dedup (initSessionState 0)
    ("Do you want to proceed?\n❯ 1. Yes\n  2. No".data)
    ("Do you want to proceed?\n❯ 1. Yes\n  2. No".data) rfl).2.1

/-! ## Reset-time parsing (monitor.ts lines 826–897) -/

/-- `am`/`pm` suffix of a time string. -/
inductive Meridiem
  | am
  | pm
  deriving DecidableEq

/-- Tail `\s*(am|pm)?$` of the time regex: skip whitespace; accept the end,
or `am`/`pm` standing immediately before the end. -/
def parseTailPeriod (h m : Nat) : List Char → Option (Nat × Nat × Option Meridiem)
  | [] => some (h, m, none)
  | c :: rest =>
    if c = 'a' ∧ rest = ['m'] then some (h, m, some Meridiem.am)
    else if c = 'p' ∧ rest = ['m'] then some (h, m, some Meridiem.pm)
    else if isJsWs c then parseTailPeriod h m rest
    else none

/-- Optional minutes group `(?::(\d{2}))?` followed by the tail.  A colon not
followed by exactly two digits makes the whole anchored regex fail. -/
def parseAfterHour (h : Nat) : List Char → Option (Nat × Nat × Option Meridiem)
  | ':' :: m1 :: m2 :: rest =>
    if isDigitChar m1 && isDigitChar m2 then
      parseTailPeriod h (10 * digitVal m1 + digitVal m2) rest
    else none
  | ':' :: _ => none
  | l => parseTailPeriod h 0 l

/-- `/^(\d{1,2})(?::(\d{2}))?\s*(am|pm)?$/` applied to the lower-cased,
trimmed time string: `(hours, minutes, period)` with minutes defaulting
to 0. -/
def parseTimeStr : List Char → Option (Nat × Nat × Option Meridiem)
  | [] => none
  | c1 :: rest =>
    if isDigitChar c1 then
      match rest with
      | c2 :: rest2 =>
        if isDigitChar c2 then parseAfterHour (10 * digitVal c1 + digitVal c2) rest2
        else parseAfterHour (digitVal c1) rest
      | [] => parseAfterHour (digitVal c1) []
    else none

/-- The AM/PM conversion of `parseResetTime`: `pm` with hour ≠ 12 adds 12;
`am` with hour 12 becomes 0. -/
def convertHour (h : Nat) : Option Meridiem → Nat
  | some Meridiem.pm => if h ≠ 12 then h + 12 else h
  | some Meridiem.am => if h = 12 then 0 else h
  | none => h

/-- `parseResetTime(timeStr)` with the current instant `now` injected, both
in seconds (the source zeroes seconds and milliseconds via
`setHours(h, m, 0, 0)`; one civil day is 86400 s).  The candidate is today at
the converted hour/minute; a candidate not in the future (`resetTime <= now`)
rolls to tomorrow; a deadline strictly more than 5 hours (18000 s) away is
rejected. -/
def parseResetTime (now : Nat) (timeStr : List Char) : Option Nat :=
  match parseTimeStr (trimChars (timeStr.map asciiToLower)) with
  | none => none
  | some (h, m, p) =>
    let hh := convertHour h p
    let cand := now / 86400 * 86400 + hh * 3600 + m * 60
    let d := if cand ≤ now then cand + 86400 else cand
    if 18000 < d - now then none else some d

/-- The capture group `(\d{1,2}(?::\d{2})?\s*(?:am|pm)?)` of the
reset-time extraction patterns, anchored at the current position; greedy,
keeping the original characters (the literals are case-insensitive). -/
def captureTimeAt : List Char → Option (List Char)
  | [] => none
  | c1 :: rest =>
    if isDigitChar c1 then
      let p1 : List Char × List Char :=
        match rest with
        | c2 :: r2 => if isDigitChar c2 then ([c1, c2], r2) else ([c1], rest)
        | [] => ([c1], [])
      let p2 : List Char × List Char :=
        match p1.2 with
        | ':' :: a :: b :: r =>
          if isDigitChar a && isDigitChar b then ([':', a, b], r) else ([], p1.2)
        | _ => ([], p1.2)
      let ws := p2.2.takeWhile isJsWs
      let r3 := p2.2.dropWhile isJsWs
      let ap : List Char :=
        if ciStartsWith ("am".data) r3 then r3.take 2
        else if ciStartsWith ("pm".data) r3 then r3.take 2
        else []
      some (p1.1 ++ p2.1 ++ ws ++ ap)
    else none

/-- Scan for the first position where the case-insensitive literal `lit` is
followed by a successful time capture (`output.match(/lit(\d...)/i)`). -/
def findCiCapture (lit : List Char) : List Char → Option (List Char)
  | [] => none
  | c :: t =>
    match (if ciStartsWith lit (c :: t) then captureTimeAt ((c :: t).drop lit.length)
           else none) with
    | some cap => some cap
    | none => findCiCapture lit t

/-- `extractResetTime(output)` (monitor.ts lines 827–843): the four patterns
tried in order, the captured group trimmed. -/
def extractResetTime (output : List Char) : Option (List Char) :=
  match findCiCapture ("resets ".data) output with
  | some cap => some (trimChars cap)
  | none =>
    match findCiCapture ("resets at ".data) output with
    | some cap => some (trimChars cap)
    | none =>
      match findCiCapture ("available again at ".data) output with
      | some cap => some (trimChars cap)
      | none =>
        match findCiCapture ("ready at ".data) output with
        | some cap => some (trimChars cap)
        | none => none

/-! ## Limit recovery (monitor.ts lines 383–453) -/

/-- Outcome of `tryImmediateContinuation`, abstracted as an input because it
depends on live pane captures around a 3-second wait. -/
structure ContinuationAttempt where
  success : Bool
  response : Option (List Char) := none

/-- The `Monitoring for availability` sentinel used when no reset time was
extracted. -/
def monitoringSentinel : List Char := "Monitoring for availability".data

/-- The scheduling tail of `handleLimitDetected` (lines 429–452): extract the
reset time, parse it into a deadline (setting `scheduledResetTime` only on
success), then always notify `limit` with the raw string (or the sentinel)
and move the session to `waiting`. -/
def scheduleAndNotifyLimit (st : SessionRuntimeState) (output : List Char)
    (now : Nat) : SessionRuntimeState × List Effect :=
  let resetTime := extractResetTime output
  let st2 :=
    match resetTime with
    | some r =>
      match parseResetTime now r with
      | some d => { st with scheduledResetTime := some d }
      | none => st
    | none => st
  let payload :=
    match resetTime with
    | some r => if r = [] then monitoringSentinel else r
    | none => monitoringSentinel
  (st2,
   [Effect.notify NotifyType.limit payload,
    Effect.updateStatus SessionStatus.waiting])

/-- `handleLimitDetected` (monitor.ts lines 383–453): short-circuit when
already scheduled; otherwise emit `limit_detected`; on the first detection of
an episode run the immediate continuation (its result is the abstracted
`att`), resolving silently on success, else fall through to scheduling with
the attempt's richer output. -/
def handleLimitDetected (st : SessionRuntimeState) (output : List Char)
    (now : Nat) (att : ContinuationAttempt) : SessionRuntimeState × List Effect :=
  if st.scheduledResetTime.isSome then (st, [])
  else if st.immediateContinueAttempted = false then
    let st1 := { st with immediateContinueAttempted := true }
    if att.success then
      ({ st1 with lastContinuationTime := some now,
                  awaitingContinuation := false,
                  immediateContinueAttempted := false },
       [Effect.emitEvent EventType.limit_detected,
        Effect.updateStatus SessionStatus.active])
    else
      let out2 := match att.response with
        | some r => if r = [] then output else r
        | none => output
      let r := scheduleAndNotifyLimit st1 out2 now
      (r.1, Effect.emitEvent EventType.limit_detected :: r.2)
  else
    let r := scheduleAndNotifyLimit st output now
    (r.1, Effect.emitEvent EventType.limit_detected :: r.2)

/-! ## Claim theorems: C3 and C4 -/

/-- The AM/PM conversion written out as the spec states it. -/
theorem convertHour_eq (h : Nat) (p : Option Meridiem) :
    convertHour h p =
      (if p = some Meridiem.pm ∧ h ≠ 12 then h + 12
       else if p = some Meridiem.am ∧ h = 12 then 0
       else h) := by
  cases p with
  | none => simp [convertHour]
  | some md =>
    cases md <;> by_cases h12 : h = 12 <;> simp [convertHour, h12]

/-- C3: on every string the time regex accepts (`H` or `H:MM` with an
optional `am`/`pm` suffix, read as `(h, m, p)`), `parseResetTime` applies the
12-hour rules (`pm` and hour ≠ 12 adds 12, `am` and hour 12 becomes 0),
builds today's wall-clock at that hour and minute, rolls to tomorrow exactly
when that instant is not in the future, and returns the deadline whenever it
is within the 5-hour cap. -/
theorem parseResetTime_conversion (now : Nat) (s : List Char)
    (h m : Nat) (p : Option Meridiem)
    (hp : parseTimeStr (trimChars (s.map asciiToLower)) = some (h, m, p)) :
    parseResetTime now s =
      (let hh := if p = some Meridiem.pm ∧ h ≠ 12 then h + 12
                 else if p = some Meridiem.am ∧ h = 12 then 0
                 else h
       let today := now / 86400 * 86400 + hh * 3600 + m * 60
       let d := if today ≤ now then today + 86400 else today
       if 18000 < d - now then none else some d) := by
  unfold parseResetTime
  rw [hp]
  simp [convertHour_eq]

/-- C3 witness: `"3:45pm"` seen at `now = 50000 s` parses to `(3, 45, pm)`
and schedules today's 15:45 (56700 s). -/
theorem parseResetTime_conversion_witness :
    parseTimeStr (trimChars (("3:45pm".data).map asciiToLower)) =
        some (3, 45, some Meridiem.pm)
    ∧ parseResetTime 50000 ("3:45pm".data) = some 56700 := by
  refine ⟨by decide, ?_⟩
  rw [parseResetTime_conversion 50000 ("3:45pm".data) 3 45 (some Meridiem.pm)
    (by decide)]
  decide

/-- C4 counterexample: at `now = 0` the string `"5:00"` produces the deadline
18000 s — exactly 5 hours ahead — and `parseResetTime` does schedule it (the
source rejects only deadlines strictly more than 5 hours away), so the
claim's "a deadline exactly 5 hours ahead also yields no schedule" is
false. -/
theorem resetTime_cap_boundary_cex :
    parseResetTime 0 ("5:00".data) = some 18000 ∧ 18000 = 5 * 3600 := by
  exact ⟨by decide, by decide⟩

/-- When the extracted reset string fails to parse, the scheduling tail
leaves the state untouched and still notifies with the raw string. -/
theorem scheduleAndNotifyLimit_parse_fail (st : SessionRuntimeState)
    (out : List Char) (now : Nat) (r : List Char)
    (hext : extractResetTime out = some r) (hr : r ≠ [])
    (hparse : parseResetTime now r = none) :
    scheduleAndNotifyLimit st out now =
      (st, [Effect.notify NotifyType.limit r,
            Effect.updateStatus SessionStatus.waiting]) := by
  unfold scheduleAndNotifyLimit
  simp [hext, hparse, hr]

/-- C4 (amended): `parseResetTime` yields no schedule exactly when the rolled
deadline is strictly more than 5 hours ahead (so every scheduled deadline is
at most 18000 s away, the exact 5-hour boundary included), and when parsing
rejects the extracted string the limit notification still fires carrying the
raw reset-time string while `scheduledResetTime` stays unset. -/
theorem resetTime_cap_spec :
    (∀ now s d, parseResetTime now s = some d → d - now ≤ 18000)
    ∧ (∀ (st : SessionRuntimeState) (out : List Char) (now : Nat) (r : List Char),
        st.scheduledResetTime = none →
        st.immediateContinueAttempted = true →
        extractResetTime out = some r →
        r ≠ [] →
        parseResetTime now r = none →
        (handleLimitDetected st out now { success := false }).1.scheduledResetTime
            = none
        ∧ (handleLimitDetected st out now { success := false }).2 =
            [Effect.emitEvent EventType.limit_detected,
             Effect.notify NotifyType.limit r,
             Effect.updateStatus SessionStatus.waiting]) := by
  constructor
  · intro now s d hd
    unfold parseResetTime at hd
    cases hps : parseTimeStr (trimChars (s.map asciiToLower)) with
    | none => rw [hps] at hd; exact absurd hd (by simp)
    | some triple =>
      obtain ⟨h, m, p⟩ := triple
      rw [hps] at hd
      simp only [] at hd
      split at hd
      · split at hd
        · exact absurd hd (by simp)
        · rw [Option.some_inj] at hd
          omega
      · split at hd
        · exact absurd hd (by simp)
        · rw [Option.some_inj] at hd
          omega
  · intro st out now r hsched hatt hext hr hparse
    have hs := scheduleAndNotifyLimit_parse_fail st out now r hext hr hparse
    unfold handleLimitDetected
    rw [hsched, hatt]
    simp [hs, hsched]

/-- C4 witness: a pane showing `resets 9pm` seen at midnight: `9pm` is more
than 5 hours away, no schedule is set, and the `limit` notification carries
the raw `9pm`. -/
theorem resetTime_cap_spec_witness :
    (handleLimitDetected
        { initSessionState 0 with immediateContinueAttempted := true }
        ("Your limit resets 9pm".data) 0 { success := false }).2 =
      [Effect.emitEvent EventType.limit_detected,
       Effect.notify NotifyType.limit ("9pm".data),
       Effect.updateStatus SessionStatus.waiting] :=
  (resetTime_cap_spec.2
    { initSessionState 0 with immediateContinueAttempted := true }
    ("Your limit resets 9pm".data) 0 ("9pm".data)
    rfl rfl (by decide) (by decide) (by decide)).2

/-! ## Idle / task-completion detection (monitor.ts lines 56–65, 295–381) -/

/-- `\s*$` with the multiline flag: whitespace up to the end of the string or
up to a line end. -/
def dollarAfterWs : List Char → Bool
  | [] => true
  | c :: rest => c = '\n' || (isJsWs c && dollarAfterWs rest)

/-- `\s*send` with backtracking: skip whitespace until the literal `send`. -/
def wsThenSend : List Char → Bool
  | [] => false
  | c :: rest =>
    startsWithChars ("send".data) (c :: rest) || (isJsWs c && wsThenSend rest)

/-- `.*↵\s*send` within the current line: `.` stops at a newline, `↵` may be
any later occurrence on the line. -/
def arrowThenSend : List Char → Bool
  | [] => false
  | c :: rest =>
    if c = '\n' then false
    else (c = '↵' && wsThenSend rest) || arrowThenSend rest

/-- Scan for `/^>.*↵\s*send|^>\s*$/m`: at every line start, a `>` followed by
either the send-indicator pattern or only whitespace to the line end. -/
def waitingForInputScan : Bool → List Char → Bool
  | _, [] => false
  | atStart, c :: rest =>
    (atStart && c = '>' && (arrowThenSend rest || dollarAfterWs rest))
    || waitingForInputScan (c = '\n') rest

/-- `patterns.taskCompletion.waitingForInput.test(output)`. -/
def waitingForInput (output : List Char) : Bool :=
  waitingForInputScan true output

/-- The spinner and activity words of the `notProcessing` pattern. -/
def processingMarkers : List (List Char) :=
  ["◐".data, "◑".data, "◒".data, "◓".data,
   "⠋".data, "⠙".data, "⠹".data, "⠸".data,
   "processing".data, "analyzing".data, "running".data,
   "executing".data, "working".data, "loading".data]

/-- A line contains some processing marker (case-insensitive). -/
def lineHasProcessingMarker (line : List Char) : Bool :=
  processingMarkers.any (fun mkr => jsIncludes mkr (line.map asciiToLower))

/-- `patterns.taskCompletion.notProcessing.test(output)`:
`/^(?!.*(?:markers)).*$/im` matches iff some line carries no marker. -/
def notProcessing (output : List Char) : Bool :=
  (splitLines output).any (fun l => !(lineHasProcessingMarker l))

/-- `handleTaskCompletion` (monitor.ts lines 347–381): stamp the cooldown
anchor, emit the `task_completed` event and send the notification. -/
def handleTaskCompletion (st : SessionRuntimeState) (output : List Char)
    (now : Nat) : SessionRuntimeState × List Effect :=
  ({ st with lastTaskCompletionNotification := some now },
   [Effect.emitEvent EventType.task_completed,
    Effect.notify NotifyType.task_completed output])

/-- `checkTaskCompletion` (monitor.ts lines 295–345), times in milliseconds:
skip while `awaitingContinuation` or without a change timestamp; skip when
idle for less than 10000 ms; require the waiting-for-input and not-processing
patterns; honor the 300000 ms cooldown; otherwise fire. -/
def checkTaskCompletion (st : SessionRuntimeState) (now : Nat)
    (output : List Char) : SessionRuntimeState × List Effect :=
  if st.awaitingContinuation then (st, [])
  else
    match st.lastOutputChangeTime with
    | none => (st, [])
    | some tc =>
      let idleMs := now - tc
      if idleMs < 10000 then (st, [])
      else if !(waitingForInput output) || !(notProcessing output) then (st, [])
      else
        match st.lastTaskCompletionNotification with
        | some tn =>
          if now - tn < 300000 then (st, [])
          else handleTaskCompletion st output now
        | none => handleTaskCompletion st output now

/-! ## Claim theorems: C5 -/

/-- C5 counterexample: all other preconditions hold (fresh state, change at
t = 0, prompt-only pane `"> "`) and the idle duration is exactly 10 s — the
code fires the task-completed notification, because it only skips idle
durations strictly below 10 s.  The claim says the boundary must not fire. -/
theorem idle_boundary_cex :
    checkTaskCompletion (initSessionState 0) 10000 ("> ".data) =
      ({ initSessionState 0 with lastTaskCompletionNotification := some 10000 },
       [Effect.emitEvent EventType.task_completed,
        Effect.notify NotifyType.task_completed ("> ".data)]) := by
  decide

/-- C5 (amended): with the other preconditions satisfied, the detector fires
exactly when the idle duration is at least 10 s: strictly below the boundary
nothing happens, at or above it the event and notification are produced and
the cooldown anchor is stamped. -/
theorem idle_detection_spec (st : SessionRuntimeState) (now tc : Nat)
    (output : List Char)
    (hA : st.awaitingContinuation = false)
    (hT : st.lastOutputChangeTime = some tc)
    (hW : waitingForInput output = true)
    (hP : notProcessing output = true)
    (hC : ∀ tn, st.lastTaskCompletionNotification = some tn →
        300000 ≤ now - tn) :
    checkTaskCompletion st now output =
      if now - tc < 10000 then (st, [])
      else ({ st with lastTaskCompletionNotification := some now },
            [Effect.emitEvent EventType.task_completed,
             Effect.notify NotifyType.task_completed output]) := by
  unfold checkTaskCompletion
  rw [hA, hT]
  by_cases hidle : now - tc < 10000
  · simp [hidle]
  · cases htn : st.lastTaskCompletionNotification with
    | none => simp [hidle, hW, hP, htn, handleTaskCompletion, hA, hT]
    | some tn =>
      have hcool : ¬(now - tn < 300000) := by
        have := hC tn htn
        omega
      simp [hidle, hW, hP, htn, hcool, handleTaskCompletion, hA, hT]

/-- C5 witness: the amended theorem at 15 s idle on a bare prompt fires. -/
theorem idle_detection_spec_witness :
    checkTaskCompletion (initSessionState 0) 15000 ("> ".data) =
      ({ initSessionState 0 with lastTaskCompletionNotification := some 15000 },
       [Effect.emitEvent EventType.task_completed,
        Effect.notify NotifyType.task_completed ("> ".data)]) := by
  rw [idle_detection_spec (initSessionState 0) 15000 0 ("> ".data)
    rfl rfl (by decide) (by decide)
    (by intro tn htn; simp [initSessionState] at htn)]
  decide

/-! ## Public surface and polling errors (monitor.ts lines 105–141,
696–720, 1009–1018) -/

/-- The `Session not found` error text thrown by `startMonitoring`. -/
def sessionNotFoundMsg (sid : List Char) : List Char :=
  "Session not found: ".data ++ sid

/-- `startMonitoring(sessionId)` (monitor.ts lines 105–131): throws when the
registry lookup returns null, otherwise installs the fresh per-session state
(and the poll timer).  Thrown JS exceptions are modelled by `Except.error`. -/
def startMonitoring (lookup : List Char → Option Unit) (sid : List Char)
    (now : Nat) : Except (List Char) SessionRuntimeState :=
  match lookup sid with
  | none => Except.error (sessionNotFoundMsg sid)
  | some _ => Except.ok (initSessionState now)

/-- The two engine-owned maps keyed by session id. -/
structure MonitorMaps where
  monitoringIntervals : List (List Char) := []
  sessionStates : List (List Char × SessionRuntimeState) := []

/-- `stopMonitoring(sessionId)` (monitor.ts lines 133–141): clear the timer
and delete both map entries; no code path throws. -/
def stopMonitoring (m : MonitorMaps) (sid : List Char) :
    Except (List Char) MonitorMaps :=
  Except.ok
    { monitoringIntervals := m.monitoringIntervals.filter (fun k => !(k == sid))
    , sessionStates := m.sessionStates.filter (fun kv => !(kv.1 == sid)) }

/-- `stopAll()` (monitor.ts lines 1009–1014): stop every session holding a
timer; each step is the non-throwing `stopMonitoring`. -/
def stopAll (m : MonitorMaps) : Except (List Char) MonitorMaps :=
  Except.ok
    (m.monitoringIntervals.foldl
      (fun acc sid =>
        { monitoringIntervals := acc.monitoringIntervals.filter (fun k => !(k == sid))
        , sessionStates := acc.sessionStates.filter (fun kv => !(kv.1 == sid)) })
      m)

/-- `getActiveMonitoring()` (monitor.ts lines 1016–1018). -/
def getActiveMonitoring (m : MonitorMaps) : List (List Char) :=
  m.monitoringIntervals

/-- Boolean success test for a public-surface call. -/
def exceptIsOk {α : Type} (e : Except (List Char) α) : Bool :=
  match e with
  | Except.ok _ => true
  | Except.error _ => false

/-! ## Claim theorems: C8 -/

/-- C8 counterexample: `startMonitoring` on a session id whose registry
lookup returns null raises `Session not found: …` instead of returning
normally, so the public boundary does surface an exception. -/
theorem startMonitoring_throws_cex :
    startMonitoring (fun _ => none) ("missing".data) 0 =
      Except.error ("Session not found: missing".data) := by
  rfl

/-- C8 (amended): `startMonitoring` throws exactly when the registry lookup
returns null, and the remaining public operations (`stopMonitoring`,
`stopAll`; `getActiveMonitoring` is a total map read) never throw. -/
theorem public_surface_error_spec (lookup : List Char → Option Unit)
    (sid : List Char) (now : Nat) (m : MonitorMaps) :
    ((∃ e, startMonitoring lookup sid now = Except.error e) ↔ lookup sid = none)
    ∧ exceptIsOk (stopMonitoring m sid) = true
    ∧ exceptIsOk (stopAll m) = true
    ∧ getActiveMonitoring m = m.monitoringIntervals := by
  refine ⟨?_, rfl, rfl, rfl⟩
  constructor
  · rintro ⟨e, he⟩
    cases hl : lookup sid with
    | none => rfl
    | some u =>
      unfold startMonitoring at he
      rw [hl] at he
      exact absurd he (by simp)
  · intro hl
    refine ⟨sessionNotFoundMsg sid, ?_⟩
    unfold startMonitoring
    rw [hl]

/-! ## Polling retries (monitor.ts lines 143–207, 696–720) -/

/-- The retry-relevant slice of a monitored session: its failure counter and
whether its timer is still installed. -/
structure RetrySession where
  retryCount : Nat
  monitoring : Bool
  deriving DecidableEq

/-- `handlePollingError` (monitor.ts lines 696–720): increment `retryCount`;
at or above `maxRetries` stop monitoring and emit one `error` event,
otherwise log and continue. -/
def handlePollingError (maxRetries : Nat) (st : RetrySession) :
    RetrySession × List Effect :=
  let rc := st.retryCount + 1
  if maxRetries ≤ rc then
    ({ retryCount := rc, monitoring := false },
     [Effect.emitEvent EventType.error])
  else
    ({ st with retryCount := rc }, [])

/-- Whether a poll cycle's try-block completed or threw. -/
inductive PollOutcome
  | ok
  | err
  deriving DecidableEq

/-- The retry effect of one `pollSession` cycle: the try-block never writes
`retryCount` (no reset on success anywhere in monitor.ts); the catch-block
delegates to `handlePollingError`. -/
def pollCycleRetry (maxRetries : Nat) (st : RetrySession) :
    PollOutcome → RetrySession × List Effect
  | PollOutcome.ok => (st, [])
  | PollOutcome.err => handlePollingError maxRetries st

/-- Iterate poll cycles over a list of outcomes. -/
def runPollOutcomes (maxRetries : Nat) :
    RetrySession → List PollOutcome → RetrySession
  | st, [] => st
  | st, o :: rest => runPollOutcomes maxRetries (pollCycleRetry maxRetries st o).1 rest

/-! ## Claim theorems: C9 -/

/-- C9 counterexample: after one failure followed by one clean cycle the
counter is still 1 (the claim's "a poll cycle that completes without error
resets it" predicts 0), and with `maxRetries = 3` the trace
error, ok, error, ok, error stops the session although no two failures were
consecutive. -/
theorem retry_no_reset_cex :
    (runPollOutcomes 3 { retryCount := 0, monitoring := true }
        [PollOutcome.err, PollOutcome.ok]).retryCount = 1
    ∧ ¬((runPollOutcomes 3 { retryCount := 0, monitoring := true }
        [PollOutcome.err, PollOutcome.ok]).retryCount = 0)
    ∧ (runPollOutcomes 3 { retryCount := 0, monitoring := true }
        [PollOutcome.err, PollOutcome.ok, PollOutcome.err, PollOutcome.ok,
         PollOutcome.err]).monitoring = false := by
  decide

/-- C9 (amended): `retryCount` counts polling failures since monitoring
began — a clean cycle leaves the state (and the counter) untouched, each
caught polling error increments the counter, reaching `maxRetries` stops the
session and emits exactly one `error` event, and below the budget monitoring
continues with no event. -/
theorem retry_budget_spec (maxRetries : Nat) (st : RetrySession)
    (hm : st.monitoring = true) :
    pollCycleRetry maxRetries st PollOutcome.ok = (st, [])
    ∧ (pollCycleRetry maxRetries st PollOutcome.err).1.retryCount =
        st.retryCount + 1
    ∧ (maxRetries ≤ st.retryCount + 1 →
        (pollCycleRetry maxRetries st PollOutcome.err).1.monitoring = false
        ∧ (pollCycleRetry maxRetries st PollOutcome.err).2 =
            [Effect.emitEvent EventType.error])
    ∧ (st.retryCount + 1 < maxRetries →
        (pollCycleRetry maxRetries st PollOutcome.err).1.monitoring = true
        ∧ (pollCycleRetry maxRetries st PollOutcome.err).2 = []) := by
  refine ⟨rfl, ?_, ?_, ?_⟩
  · unfold pollCycleRetry handlePollingError
    by_cases hle : maxRetries ≤ st.retryCount + 1
    · simp [hle]
    · simp [hle]
  · intro hle
    unfold pollCycleRetry handlePollingError
    simp [hle]
  · intro hlt
    unfold pollCycleRetry handlePollingError
    have : ¬(maxRetries ≤ st.retryCount + 1) := by omega
    simp [this, hm]

/-- C9 witness: the amended theorem at `maxRetries = 3` on a fresh session:
the first failure keeps monitoring alive with no event. -/
theorem retry_budget_spec_witness :
    (pollCycleRetry 3 { retryCount := 0, monitoring := true }
        PollOutcome.err).1.monitoring = true
    ∧ (pollCycleRetry 3 { retryCount := 0, monitoring := true }
        PollOutcome.err).2 = [] :=
  (retry_budget_spec 3 { retryCount := 0, monitoring := true } rfl).2.2.2
    (by decide)

/-! ## Poll-cycle scheduling (monitor.ts lines 124–129, 767–822) -/

/-- The 3000 ms wait inside `tryImmediateContinuation`
(`setTimeout(resolve, 3000)`), a lower bound on that cycle's duration. -/
def immediateContinuationWaitMs : Nat := 3000

/-- `setInterval(cb, pollInterval)` fires tick `k` at `(k+1) · pollInterval`
milliseconds after `startMonitoring`; the callback starts `pollSession`
without awaiting the previous invocation (`void this.pollSession(...)`), and
no in-flight guard exists in the per-session state. -/
def tickTime (pollInterval k : Nat) : Nat := (k + 1) * pollInterval

/-- Cycle `k` of a session is in flight at instant `t` when `t` lies between
the tick that started it and its completion `duration` later. -/
def cycleInFlight (pollInterval duration k t : Nat) : Prop :=
  tickTime pollInterval k ≤ t ∧ t < tickTime pollInterval k + duration

/-! ## Claim theorems: C2 -/

/-- C2 counterexample: with the default `pollInterval` (2000 ms) and a cycle
lasting the immediate-continuation wait alone (3000 ms), cycles 0 and 1 of
the same session are both in flight at t = 4000 ms — a new cycle (and its
pane capture) starts before the previous one completes, because the
fixed-rate timer never waits for the in-flight cycle. -/
theorem poll_overlap_cex :
    cycleInFlight (resolveMonitoringOptions {}).pollInterval
      immediateContinuationWaitMs 0 4000
    ∧ cycleInFlight (resolveMonitoringOptions {}).pollInterval
      immediateContinuationWaitMs 1 4000 := by
  unfold cycleInFlight tickTime
  refine ⟨⟨?_, ?_⟩, ?_, ?_⟩ <;> decide

/-- Arithmetic core of the overlap analysis: two windows of length `d`
whose starts are `p` apart intersect iff `p < d`. -/
theorem overlap_window_iff (a p d : Nat) (hp : 0 < p) :
    (∃ t, (a ≤ t ∧ t < a + d) ∧ (a + p ≤ t ∧ t < a + p + d)) ↔ p < d := by
  constructor
  · rintro ⟨t, ⟨h1, h2⟩, h3, h4⟩
    omega
  · intro h
    exact ⟨a + p, ⟨by omega, by omega⟩, by omega, by omega⟩

/-- C2 (amended): the fixed-rate timer makes consecutive cycles of one
session overlap exactly when a cycle's duration exceeds `pollInterval`; in
particular the ~3 s immediate-continuation wait overlaps the next tick under
the 2 s default, and only cycles no longer than the interval are free of
overlap. -/
theorem poll_overlap_iff (p d k : Nat) (hp : 0 < p) :
    (∃ t, cycleInFlight p d k t ∧ cycleInFlight p d (k + 1) t) ↔ p < d := by
  have e1 : tickTime p (k + 1) = tickTime p k + p := by
    unfold tickTime
    ring
  unfold cycleInFlight
  rw [e1]
  exact overlap_window_iff (tickTime p k) p d hp

/-- C2 witness: the amended theorem at the source constants — default 2 s
interval against the 3 s continuation wait overlap. -/
theorem poll_overlap_iff_witness :
    ∃ t, cycleInFlight 2000 immediateContinuationWaitMs 0 t
      ∧ cycleInFlight 2000 immediateContinuationWaitMs 1 t :=
  (poll_overlap_iff 2000 immediateContinuationWaitMs 0 (by decide)).mpr
    (by decide)

end Ccremote
